import Mathlib

/-!
Verification of the `cicd-devpath` repository: a minimal FastAPI service
(`github-actions-fastapi/app/main.py`) exposing two static GET endpoints.

The embedding models:
  * Python values returned by handlers (`PyVal`), with an opaque constructor
    for arbitrary non-JSON Python objects, and JSON serialization as used by
    the framework (`serialize`), which fails on such opaque objects;
  * the two handlers `read_root` and `health_check` as `Except`-valued
    computations (a Python function either returns a value or raises);
  * the `FastAPI(...)` application object and its `@app.get` route
    registration, built by successive appends exactly in source order;
  * the framework's dispatch on (method, path) with the default 404 for
    unmatched routes, and a request-serving loop threading the application
    state, used to state idempotency / statelessness.
-/

namespace CICD

/-- HTTP methods relevant to routing. -/
inductive Method where
  | GET
  | POST
  | PUT
  | DELETE
  | PATCH
  | HEAD
  | OPTIONS
deriving DecidableEq, Repr

/-- Python runtime values that can flow out of a handler: strings,
(insertion-ordered) dicts, or an opaque non-JSON-serializable object. -/
inductive PyVal where
  | str : String → PyVal
  | dict : List (String × PyVal) → PyVal
  | obj : String → PyVal
deriving Repr

/-- A raised Python exception, abstracted to its message. -/
inductive PyErr where
  | exn : String → PyErr
deriving DecidableEq, Repr

/-- Embedding of `read_root` (main.py lines 9-14): the body is a single
`return` of a two-field dict literal; a normal return is `Except.ok`. -/
def read_root : Except PyErr PyVal :=
  Except.ok (PyVal.dict
    [("message", PyVal.str "Hello from CI/CD Pipeline!"),
     ("status", PyVal.str "running")])

/-- Embedding of `health_check` (main.py lines 16-18): a single `return`
of a one-field dict literal. -/
def health_check : Except PyErr PyVal :=
  Except.ok (PyVal.dict [("status", PyVal.str "healthy")])

/-- Identifiers for the handler functions defined in main.py. -/
inductive HandlerId where
  | readRoot
  | healthCheck
deriving DecidableEq, Repr

/-- Dispatch from a handler identifier to the embedded handler body. -/
def handlerOf : HandlerId → Except PyErr PyVal
  | HandlerId.readRoot => read_root
  | HandlerId.healthCheck => health_check

/-- One registered route: a (method, path) pair mapped to a handler. -/
structure RouteEntry where
  method : Method
  path : String
  handler : HandlerId
deriving DecidableEq, Repr

/-- The FastAPI application object: metadata plus the route table. -/
structure FastAPIApp where
  title : String
  description : String
  version : String
  routes : List RouteEntry
deriving Repr

/-- `FastAPI(title=..., description=..., version=...)`: a fresh application
with the given metadata and an empty route table. -/
def FastAPI (title description version : String) : FastAPIApp :=
  { title := title, description := description, version := version,
    routes := [] }

/-- The `@app.get(path)` decorator: appends a GET route for `path` bound to
handler `h` at the end of the route table. -/
def FastAPIApp.addGet (a : FastAPIApp) (path : String) (h : HandlerId) :
    FastAPIApp :=
  { a with routes := a.routes ++ [⟨Method.GET, path, h⟩] }

/-- The module-level `app` object of main.py: the `FastAPI(...)` call
followed by the two decorator registrations, in source order. -/
def app : FastAPIApp :=
  ((FastAPI "CI/CD Demo API" "Complete CI/CD pipeline demonstration"
      "1.0.0").addGet
    "/" HandlerId.readRoot).addGet "/health" HandlerId.healthCheck

/-- JSON values produced by the framework's response serialization. -/
inductive Json where
  | str : String → Json
  | obj : List (String × Json) → Json
deriving Repr

mutual

/-- Serialize a Python value to JSON; fails (returns `none`) exactly when an
opaque non-JSON object occurs somewhere in the value. -/
def serialize : PyVal → Option Json
  | PyVal.str s => some (Json.str s)
  | PyVal.obj _ => none
  | PyVal.dict kvs => Option.map Json.obj (serializeFields kvs)

/-- Serialize the fields of a Python dict in order. -/
def serializeFields : List (String × PyVal) → Option (List (String × Json))
  | [] => some []
  | (k, v) :: rest =>
    match serialize v, serializeFields rest with
    | some j, some r => some ((k, j) :: r)
    | _, _ => none

end

/-- An incoming HTTP request: routing key (method, path) plus the request
content (headers, query string, body) that no handler ever reads. -/
structure Request where
  method : Method
  path : String
  headers : List (String × String)
  query : List (String × String)
  body : String
deriving Repr

/-- An outgoing HTTP response: status code and optional JSON body. -/
structure Response where
  status : Nat
  body : Option Json
deriving Repr

/-- Look up the first registered route matching (method, path). -/
def findRoute : List RouteEntry → Method → String → Option HandlerId
  | [], _, _ => none
  | r :: rest, m, p =>
    if r.method = m ∧ r.path = p then some r.handler
    else findRoute rest m p

/-- The framework's dispatch: route the request; an unmatched route yields
the default 404; a matched handler that returns a serializable value yields
200 with the serialized body; a raising handler or unserializable return
value yields the server-default 500. -/
def handleRequest (a : FastAPIApp) (req : Request) : Response :=
  match findRoute a.routes req.method req.path with
  | none => ⟨404, none⟩
  | some h =>
    match handlerOf h with
    | Except.error _ => ⟨500, none⟩
    | Except.ok v =>
      match serialize v with
      | none => ⟨500, none⟩
      | some j => ⟨200, some j⟩

/-- Serving one request: the response together with the application state
afterwards. The handlers are pure, so the application object is returned
unchanged -- this is the observable state threaded by `serve`. -/
def step (a : FastAPIApp) (req : Request) : Response × FastAPIApp :=
  (handleRequest a req, a)

/-- Serve a list of requests in order, threading the application state. -/
def serve (a : FastAPIApp) : List Request → List Response × FastAPIApp
  | [] => ([], a)
  | req :: rest =>
    let s := step a req
    let t := serve s.2 rest
    (s.1 :: t.1, t.2)

/-- A Python value that is a dict mapping strings to string values. -/
def isStringDict : PyVal → Bool
  | PyVal.dict kvs =>
    kvs.all (fun kv => match kv.2 with
      | PyVal.str _ => true
      | _ => false)
  | _ => false

/-- The constant JSON body served at `GET /`. -/
def rootJson : Json :=
  Json.obj [("message", Json.str "Hello from CI/CD Pipeline!"),
            ("status", Json.str "running")]

/-- The constant JSON body served at `GET /health`. -/
def healthJson : Json :=
  Json.obj [("status", Json.str "healthy")]

/-- A concrete request carrying nontrivial request content. -/
def reqA : Request :=
  ⟨Method.GET, "/", [("x-demo", "1")], [("q", "abc")], "payload"⟩

/-- A second concrete request to the same endpoint with different content. -/
def reqB : Request :=
  ⟨Method.GET, "/", [], [], ""⟩

/-! ## Helper lemmas shared by the claim theorems -/

/-- Any GET request to `/` is dispatched to `read_root` and answered with
status 200 and the root body. -/
theorem handle_root (req : Request) (hm : req.method = Method.GET)
    (hp : req.path = "/") :
    handleRequest app req = ⟨200, some rootJson⟩ := by
  obtain ⟨m, p, hd, q, b⟩ := req
  subst hm
  subst hp
  rfl

/-- Any GET request to `/health` is dispatched to `health_check` and
answered with status 200 and the health body. -/
theorem handle_health (req : Request) (hm : req.method = Method.GET)
    (hp : req.path = "/health") :
    handleRequest app req = ⟨200, some healthJson⟩ := by
  obtain ⟨m, p, hd, q, b⟩ := req
  subst hm
  subst hp
  rfl

/-- A request matching neither registered route falls through the route
table and receives the framework default 404. -/
theorem handle_unmatched (req : Request)
    (h1 : ¬ (req.method = Method.GET ∧ req.path = "/"))
    (h2 : ¬ (req.method = Method.GET ∧ req.path = "/health")) :
    handleRequest app req = ⟨404, none⟩ := by
  have hfind : findRoute app.routes req.method req.path = none := by
    show (if Method.GET = req.method ∧ "/" = req.path
          then some HandlerId.readRoot
          else if Method.GET = req.method ∧ "/health" = req.path
          then some HandlerId.healthCheck
          else none) = none
    rw [if_neg fun hc => h1 ⟨hc.1.symm, hc.2.symm⟩,
        if_neg fun hc => h2 ⟨hc.1.symm, hc.2.symm⟩]
  unfold handleRequest
  rw [hfind]

/-- Serving any request list leaves the application object unchanged. -/
theorem serve_state_const (a : FastAPIApp) (reqs : List Request) :
    (serve a reqs).2 = a := by
  induction reqs with
  | nil => rfl
  | cons r rs ih => exact ih

/-! ## Claim theorems -/

/-- C1: every GET request to `/` is answered by `read_root` with HTTP
status 200 and a body exactly equal to the two-field JSON object
with message "Hello from CI/CD Pipeline!" and status "running". -/
theorem read_root_response (req : Request) (hm : req.method = Method.GET)
    (hp : req.path = "/") :
    handleRequest app req =
      ⟨200, some (Json.obj
        [("message", Json.str "Hello from CI/CD Pipeline!"),
         ("status", Json.str "running")])⟩ :=
  handle_root req hm hp

/-- Witness for C1 at a concrete GET request to `/`. -/
theorem read_root_response_witness :
    reqA.method = Method.GET ∧ reqA.path = "/" ∧
    handleRequest app reqA =
      ⟨200, some (Json.obj
        [("message", Json.str "Hello from CI/CD Pipeline!"),
         ("status", Json.str "running")])⟩ :=
  ⟨rfl, rfl, read_root_response reqA rfl rfl⟩

/-- C2: every GET request to `/health` is answered by `health_check` with
HTTP status 200 and a body exactly equal to the one-field JSON object
with status "healthy". -/
theorem health_check_response (req : Request) (hm : req.method = Method.GET)
    (hp : req.path = "/health") :
    handleRequest app req =
      ⟨200, some (Json.obj [("status", Json.str "healthy")])⟩ :=
  handle_health req hm hp

/-- Witness for C2 at a concrete GET request to `/health`. -/
theorem health_check_response_witness :
    (⟨Method.GET, "/health", [], [], ""⟩ : Request).method = Method.GET ∧
    (⟨Method.GET, "/health", [], [], ""⟩ : Request).path = "/health" ∧
    handleRequest app ⟨Method.GET, "/health", [], [], ""⟩ =
      ⟨200, some (Json.obj [("status", Json.str "healthy")])⟩ :=
  ⟨rfl, rfl, health_check_response ⟨Method.GET, "/health", [], [], ""⟩ rfl rfl⟩

/-- C3: any request whose (method, path) is neither (GET, "/") nor
(GET, "/health") matches no registered route and receives the framework
default 404, hence a status different from 200. -/
theorem unmatched_route_not_200 (req : Request)
    (h1 : ¬ (req.method = Method.GET ∧ req.path = "/"))
    (h2 : ¬ (req.method = Method.GET ∧ req.path = "/health")) :
    (handleRequest app req).status ≠ 200 := by
  rw [handle_unmatched req h1 h2]
  decide

/-- Witness for C3 at a concrete POST request to `/`. -/
theorem unmatched_route_not_200_witness :
    ¬ ((⟨Method.POST, "/", [], [], ""⟩ : Request).method = Method.GET ∧
        (⟨Method.POST, "/", [], [], ""⟩ : Request).path = "/") ∧
    ¬ ((⟨Method.POST, "/", [], [], ""⟩ : Request).method = Method.GET ∧
        (⟨Method.POST, "/", [], [], ""⟩ : Request).path = "/health") ∧
    (handleRequest app ⟨Method.POST, "/", [], [], ""⟩).status ≠ 200 :=
  ⟨by decide, by decide,
    unmatched_route_not_200 ⟨Method.POST, "/", [], [], ""⟩
      (by decide) (by decide)⟩

/-- C4: for any sequence of GET requests all addressed to the same
registered endpoint (`/` or `/health`), all responses are identical and
serving the sequence leaves the application state unchanged. -/
theorem endpoints_idempotent (p : String) (hp : p = "/" ∨ p = "/health")
    (reqs : List Request)
    (hall : ∀ q ∈ reqs, q.method = Method.GET ∧ q.path = p) :
    (∀ q ∈ reqs, ∀ q' ∈ reqs,
        handleRequest app q = handleRequest app q') ∧
    (serve app reqs).2 = app := by
  refine ⟨fun q hq q' hq' => ?_, serve_state_const app reqs⟩
  obtain ⟨hqm, hqp⟩ := hall q hq
  obtain ⟨hqm', hqp'⟩ := hall q' hq'
  rcases hp with h | h
  · rw [handle_root q hqm (hqp.trans h), handle_root q' hqm' (hqp'.trans h)]
  · rw [handle_health q hqm (hqp.trans h),
        handle_health q' hqm' (hqp'.trans h)]

/-- Witness for C4: two distinct concrete GET requests to `/` give equal
responses and leave the application unchanged. -/
theorem endpoints_idempotent_witness :
    handleRequest app reqA = handleRequest app reqB ∧
    (serve app [reqA, reqB]).2 = app :=
  ⟨(endpoints_idempotent "/" (Or.inl rfl) [reqA, reqB] (by decide)).1
      reqA (by simp) reqB (by simp),
    (endpoints_idempotent "/" (Or.inl rfl) [reqA, reqB] (by decide)).2⟩

/-- C5: the application registers exactly the two routes (GET, "/") bound
to `read_root` and (GET, "/health") bound to `health_check`, in that
order and nothing else. -/
theorem app_routes_exact :
    app.routes = [⟨Method.GET, "/", HandlerId.readRoot⟩,
                  ⟨Method.GET, "/health", HandlerId.healthCheck⟩] ∧
    handlerOf HandlerId.readRoot = read_root ∧
    handlerOf HandlerId.healthCheck = health_check :=
  ⟨rfl, rfl, rfl⟩

/-- C6: the application metadata is exactly the title "CI/CD Demo API",
the description "Complete CI/CD pipeline demonstration" and
the version "1.0.0". -/
theorem app_metadata :
    app.title = "CI/CD Demo API" ∧
    app.description = "Complete CI/CD pipeline demonstration" ∧
    app.version = "1.0.0" :=
  ⟨rfl, rfl, rfl⟩

/-- C7: neither handler can fail -- both embedded handlers return normally
(`Except.ok`), never reaching an error branch -- and serving a request has
no side effect on the application state. -/
theorem handlers_cannot_fail :
    (∃ v, read_root = Except.ok v) ∧
    (∃ v, health_check = Except.ok v) ∧
    ∀ (a : FastAPIApp) (req : Request), (step a req).2 = a :=
  ⟨⟨_, rfl⟩, ⟨_, rfl⟩, fun _ _ => rfl⟩

/-- C8: the response depends only on the routing key -- two requests with
equal method and path receive equal responses regardless of headers,
query string or body. -/
theorem response_noninterference (q q' : Request)
    (hm : q.method = q'.method) (hp : q.path = q'.path) :
    handleRequest app q = handleRequest app q' := by
  obtain ⟨m, p, hd, qs, b⟩ := q
  obtain ⟨m', p', hd', qs', b'⟩ := q'
  simp only at hm hp
  subst hm
  subst hp
  rfl

/-- Witness for C8: two concrete requests to `/` differing in headers,
query and body receive the same response. -/
theorem response_noninterference_witness :
    reqA.method = reqB.method ∧ reqA.path = reqB.path ∧
    handleRequest app reqA = handleRequest app reqB :=
  ⟨rfl, rfl, response_noninterference reqA reqB rfl rfl⟩

/-- C9: both handlers are total -- every invocation of either handler
terminates with a returned value. -/
theorem handlers_terminate :
    ∀ h : HandlerId, ∃ v, handlerOf h = Except.ok v := by
  intro h
  cases h
  · exact ⟨_, rfl⟩
  · exact ⟨_, rfl⟩

/-- C10: every value returned by either handler is a dict from string
literals to string literals, and its JSON serialization succeeds. -/
theorem handler_results_serializable (h : HandlerId) (v : PyVal)
    (hv : handlerOf h = Except.ok v) :
    isStringDict v = true ∧ ∃ j, serialize v = some j := by
  cases h <;> injection hv with hveq <;> subst hveq <;>
    exact ⟨rfl, ⟨_, rfl⟩⟩

/-- Witness for C10 at the concrete result of `read_root`. -/
theorem handler_results_serializable_witness :
    handlerOf HandlerId.readRoot =
      Except.ok (PyVal.dict
        [("message", PyVal.str "Hello from CI/CD Pipeline!"),
         ("status", PyVal.str "running")]) ∧
    (isStringDict (PyVal.dict
        [("message", PyVal.str "Hello from CI/CD Pipeline!"),
         ("status", PyVal.str "running")]) = true ∧
      ∃ j, serialize (PyVal.dict
        [("message", PyVal.str "Hello from CI/CD Pipeline!"),
         ("status", PyVal.str "running")]) = some j) :=
  ⟨rfl, handler_results_serializable HandlerId.readRoot _ rfl⟩

end CICD
